import Mathlib

/-!
Verification of the Northwind migration-and-reconciliation pipeline
(`scripts/migrate_to_snowflake.py`, `scripts/verify_migration.py`, and the
aggregation code of `streamlit_app/app.py`) against its design document.

The relational data is embedded shallowly: a table is a `List` of row
structures, SQL joins are list comprehensions (`flatMap` / `filter`),
numeric columns typed FLOAT in the DDL are modelled as exact rationals
(the claims under study are algebraic identities and tolerance
comparisons, not rounding behaviour), DATE columns are day numbers
(`Int`), and every nullable column is an `Option`.
-/

namespace Northwind

/-! ### SQL building blocks -/

/-- Python `str.upper()` as used by the two scripts, restricted to the eight
fixed table names that are the only strings the scripts ever uppercase
(identity elsewhere).  Spelled out per name so that it evaluates in the
kernel. -/
def upperName (s : String) : String :=
  if s = "categories" then "CATEGORIES"
  else if s = "customers" then "CUSTOMERS"
  else if s = "employees" then "EMPLOYEES"
  else if s = "suppliers" then "SUPPLIERS"
  else if s = "shippers" then "SHIPPERS"
  else if s = "products" then "PRODUCTS"
  else if s = "orders" then "ORDERS"
  else if s = "order_details" then "ORDER_DETAILS"
  else s

/-- SQL `LEFT JOIN`, one side fixed: the rows of `l` matching the join
predicate `p`, each wrapped in `some`; if there is no match the single
all-NULL partner `none`. -/
def leftJoin {α : Type} (l : List α) (p : α → Bool) : List (Option α) :=
  match l.filter p with
  | [] => [none]
  | ms => ms.map some

/-- Snowflake `DATEDIFF(day, a, b)` on nullable dates modelled as day
numbers: `b - a`, NULL if either argument is NULL. -/
def dateDiffDay (a b : Option Int) : Option Int :=
  match a, b with
  | some x, some y => some (y - x)
  | _, _ => none

/-! ### Row types

Columns are taken from the `CREATE TABLE` statements in
`migrate_to_snowflake.py` (`main`, lines 177-288).  Columns that no view,
metric or claim reads (e.g. `PICTURE`, freight and shipping address
fields) are omitted; primary-key columns are non-nullable, every other
kept column keeps the DDL's nullability.  `ORDER_DETAILS.UNIT_PRICE /
QUANTITY / DISCOUNT` are modelled non-null, matching the source Northwind
schema's NOT NULL constraints on those columns. -/

structure Category where
  category_id : Nat
  category_name : Option String
  description : Option String
deriving DecidableEq, Repr

structure Customer where
  customer_id : String
  company_name : Option String
  contact_name : Option String
  contact_title : Option String
  city : Option String
  country : Option String
deriving DecidableEq, Repr

structure Employee where
  employee_id : Nat
  last_name : Option String
  first_name : Option String
  title : Option String
  hire_date : Option Int
  city : Option String
deriving DecidableEq, Repr

structure Supplier where
  supplier_id : Nat
  company_name : Option String
deriving DecidableEq, Repr

structure Shipper where
  shipper_id : Nat
  company_name : Option String
deriving DecidableEq, Repr

structure Product where
  product_id : Nat
  product_name : Option String
  supplier_id : Option Nat
  category_id : Option Nat
  unit_price : Option Rat
  units_in_stock : Option Int
  units_on_order : Option Int
deriving DecidableEq, Repr

structure Order where
  order_id : Nat
  customer_id : Option String
  employee_id : Option Nat
  order_date : Option Int
  shipped_date : Option Int
  ship_via : Option Nat
deriving DecidableEq, Repr

structure OrderDetail where
  order_id : Nat
  product_id : Nat
  unit_price : Rat
  quantity : Int
  discount : Rat
deriving DecidableEq, Repr

/-- The eight base tables, as loaded on the target (equal to the source
contents under a faithful migration). -/
structure Database where
  categories : List Category
  customers : List Customer
  employees : List Employee
  suppliers : List Supplier
  shippers : List Shipper
  products : List Product
  orders : List Order
  order_details : List OrderDetail
deriving DecidableEq, Repr

/-! ### ORDER_DETAILS_VIEW (`create_views`, lines 98-137) -/

/-- One output row of `ORDER_DETAILS_VIEW`: the projected columns of the
SELECT list, including the calculated columns. -/
structure ViewRow where
  order_id : Nat
  product_id : Nat
  unit_price : Rat
  quantity : Int
  discount : Rat
  order_date : Option Int
  shipped_date : Option Int
  customer_id : Option String
  employee_id : Option Nat
  ship_via : Option Nat
  customer_company : Option String
  customer_contact : Option String
  customer_title : Option String
  customer_city : Option String
  customer_country : Option String
  employee_last_name : Option String
  employee_name : Option String
  employee_title : Option String
  hire_date : Option Int
  employee_city : Option String
  shipping_company : Option String
  product_name : Option String
  category_id : Option Nat
  category_name : Option String
  gross_revenue : Rat
  discount_amount : Rat
  net_revenue : Rat
  days_to_ship : Option Int
deriving DecidableEq, Repr

/-- The SELECT list of `ORDER_DETAILS_VIEW` applied to one joined tuple
`(od, o, c?, e?, s?, p?, cat?)`.  The calculated columns are the exact
expressions of lines 126-129:
`(od.UNIT_PRICE * od.QUANTITY)`, `(od.UNIT_PRICE * od.QUANTITY * od.DISCOUNT)`,
`(od.UNIT_PRICE * od.QUANTITY) - (od.UNIT_PRICE * od.QUANTITY * od.DISCOUNT)`,
`DATEDIFF(day, o.ORDER_DATE, o.SHIPPED_DATE)`. -/
def mkOrderDetailsRow (od : OrderDetail) (o : Order) (c : Option Customer)
    (e : Option Employee) (s : Option Shipper) (p : Option Product)
    (cat : Option Category) : ViewRow where
  order_id := od.order_id
  product_id := od.product_id
  unit_price := od.unit_price
  quantity := od.quantity
  discount := od.discount
  order_date := o.order_date
  shipped_date := o.shipped_date
  customer_id := o.customer_id
  employee_id := o.employee_id
  ship_via := o.ship_via
  customer_company := c.bind (·.company_name)
  customer_contact := c.bind (·.contact_name)
  customer_title := c.bind (·.contact_title)
  customer_city := c.bind (·.city)
  customer_country := c.bind (·.country)
  employee_last_name := e.bind (·.last_name)
  employee_name := e.bind (·.first_name)
  employee_title := e.bind (·.title)
  hire_date := e.bind (·.hire_date)
  employee_city := e.bind (·.city)
  shipping_company := s.bind (·.company_name)
  product_name := p.bind (·.product_name)
  category_id := p.bind (·.category_id)
  category_name := cat.bind (·.category_name)
  gross_revenue := od.unit_price * od.quantity
  discount_amount := od.unit_price * od.quantity * od.discount
  net_revenue := od.unit_price * od.quantity - od.unit_price * od.quantity * od.discount
  days_to_ship := dateDiffDay o.order_date o.shipped_date

/-- The joined tuples contributed by one `ORDER_DETAILS` row: the FROM
clause of `ORDER_DETAILS_VIEW` (lines 130-136) with `od` fixed.
`JOIN ORDERS` is an inner join (no match, no row); the five remaining
joins are `LEFT JOIN`s.  A SQL equality with a NULL operand is false, so
each left-join predicate compares against `some`-wrapped keys. -/
def orderDetailsRowsFor (db : Database) (od : OrderDetail) : List ViewRow :=
  (db.orders.filter fun o => od.order_id == o.order_id).flatMap fun o =>
    (leftJoin db.customers fun c => o.customer_id == some c.customer_id).flatMap fun c? =>
      (leftJoin db.employees fun e => o.employee_id == some e.employee_id).flatMap fun e? =>
        (leftJoin db.shippers fun s => o.ship_via == some s.shipper_id).flatMap fun s? =>
          (leftJoin db.products fun p => od.product_id == p.product_id).flatMap fun p? =>
            (leftJoin db.categories fun cat =>
                (p?.bind fun p => p.category_id) == some cat.category_id).map fun cat? =>
              mkOrderDetailsRow od o c? e? s? p? cat?

/-- `ORDER_DETAILS_VIEW`: all joined tuples, driven by `ORDER_DETAILS`. -/
def orderDetailsView (db : Database) : List ViewRow :=
  db.order_details.flatMap (orderDetailsRowsFor db)

/-! ### PRODUCT_VIEW (`create_views`, lines 141-155) -/

/-- One output row of `PRODUCT_VIEW`. -/
structure ProductViewRow where
  product_id : Nat
  product_name : Option String
  supplier_id : Option Nat
  category_id : Option Nat
  unit_price : Option Rat
  units_in_stock : Option Int
  units_on_order : Option Int
  category_name : Option String
  category_description : Option String
deriving DecidableEq, Repr

/-- `PRODUCT_VIEW`: `PRODUCTS p LEFT JOIN CATEGORIES c ON p.CATEGORY_ID =
c.CATEGORY_ID`. -/
def productView (db : Database) : List ProductViewRow :=
  db.products.flatMap fun p =>
    (leftJoin db.categories fun c => p.category_id == some c.category_id).map fun c? =>
      { product_id := p.product_id
        product_name := p.product_name
        supplier_id := p.supplier_id
        category_id := p.category_id
        unit_price := p.unit_price
        units_in_stock := p.units_in_stock
        units_on_order := p.units_on_order
        category_name := c?.bind (·.category_name)
        category_description := c?.bind (·.description) }

/-! ### Reconciliation metrics (`verify_migration.py`, `verify_key_metrics`,
lines 82-121) -/

/-- The five business aggregates of the two metric queries (lines 91-111):
three revenue sums, `COUNT(DISTINCT ORDER_ID)` and `SUM(QUANTITY)`.
An empty-table SUM is 0 here (SQL yields NULL; the design treats a null
aggregate as zero). -/
structure Metrics where
  gross_revenue : Rat
  discount : Rat
  net_revenue : Rat
  orders : Nat
  total_quantity : Int
deriving DecidableEq, Repr

/-- The PostgreSQL-side metric query: aggregates computed directly over the
raw `order_details` table (lines 91-99). -/
def pgMetrics (ods : List OrderDetail) : Metrics where
  gross_revenue := (ods.map fun od => od.unit_price * (od.quantity : Rat)).sum
  discount := (ods.map fun od => od.unit_price * (od.quantity : Rat) * od.discount).sum
  net_revenue :=
    (ods.map fun od =>
      od.unit_price * (od.quantity : Rat) - od.unit_price * (od.quantity : Rat) * od.discount).sum
  orders := ((ods.map (·.order_id)).dedup).length
  total_quantity := (ods.map (·.quantity)).sum

/-- The Snowflake-side metric query: the same five aggregates computed over
the calculated columns of `ORDER_DETAILS_VIEW` (lines 103-111). -/
def sfMetrics (rows : List ViewRow) : Metrics where
  gross_revenue := (rows.map (·.gross_revenue)).sum
  discount := (rows.map (·.discount_amount)).sum
  net_revenue := (rows.map (·.net_revenue)).sum
  orders := ((rows.map (·.order_id)).dedup).length
  total_quantity := (rows.map (·.quantity)).sum

/-- `verify_key_metrics`: runs the two metric queries and prints the five
value pairs.  Its entire observable output is the pair of metric records —
the function compares nothing, computes no pass/fail flag, and returns to
`main` without communicating any verdict (the Python function returns
`None`). -/
def verify_key_metrics (src_ods : List OrderDetail) (target_view : List ViewRow) :
    Metrics × Metrics :=
  (pgMetrics src_ods, sfMetrics target_view)

/-! ### Row-count verification (`verify_migration.py`, `verify_row_counts`,
lines 52-80, and `main`, lines 123-134) -/

/-- The fixed table list of `verify_row_counts` (lines 60-61). -/
def verifyTables : List String :=
  ["categories", "customers", "employees", "suppliers",
   "shippers", "products", "orders", "order_details"]

/-- One printed line of the row-count report: table name, the two counts,
and the `OK`/`MISMATCH` tag (lines 73-76). -/
structure RowCountEntry where
  table : String
  pgCount : Nat
  sfCount : Nat
  tag : String
deriving DecidableEq, Repr

/-- `verify_row_counts`: for each table, read `COUNT(*)` from the source
(by its lower-case name) and from the target (by its upper-cased name),
tag the pair `OK`/`MISMATCH`, and clear `all_match` on any difference.
The two databases are external services, modelled by their count
functions.  Returns `all_match` together with the printed report. -/
def verify_row_counts (pg sf : String → Nat) : Bool × List RowCountEntry :=
  verifyTables.foldl
    (fun acc table =>
      let pgCount := pg table
      let sfCount := sf (upperName table)
      let tag := if pgCount = sfCount then "OK" else "MISMATCH"
      (acc.1 && (pgCount == sfCount), acc.2 ++ [⟨table, pgCount, sfCount, tag⟩]))
    (true, [])

/-- The observable outcome of one run of `verify_migration.py`'s `main`
(lines 123-134): the row-count verdict and report, the metric pairs, the
final printed line, and the process exit status.  `main` returns normally
on both branches, so the interpreter always exits with status 0. -/
structure VerifyRun where
  rowMatch : Bool
  rowEntries : List RowCountEntry
  srcMetrics : Metrics
  tgtMetrics : Metrics
  finalLine : String
  exitCode : Nat
deriving DecidableEq, Repr

/-- `verify_migration.py`'s `main`: run `verify_row_counts`, then
`verify_key_metrics` (whose result is discarded), then print either the
all-clear line or the warning line depending only on the row-count
verdict. -/
def verifyMain (pg sf : String → Nat) (src_ods : List OrderDetail)
    (target_view : List ViewRow) : VerifyRun :=
  let rc := verify_row_counts pg sf
  let km := verify_key_metrics src_ods target_view
  { rowMatch := rc.1
    rowEntries := rc.2
    srcMetrics := km.1
    tgtMetrics := km.2
    finalLine :=
      if rc.1 then "All row counts match!" else "WARNING: Some row counts do not match!"
    exitCode := 0 }

/-! ### Migration (`migrate_to_snowflake.py`, `migrate_table` lines 70-91
and `main` lines 161-302)

The two database services are external; what the scripts do to them is
captured as a trace of issued statements plus the resulting target
row-count state. -/

/-- A statement issued by the migration script, as seen by the two
database services. -/
inductive Op where
  | createDatabase
  | readSource (table : String)
  | dropIfExists (table : String)
  | createTable (table : String)
  | writeRows (table : String) (n : Nat)
  | countRows (table : String)
  | createView (viewName : String)
deriving DecidableEq, Repr

/-- Target-side table state: table name (upper-cased) to current row
count, `none` when the table does not exist. -/
def TargetTables : Type := List (String × Nat)

/-- `DROP TABLE IF EXISTS name`. -/
def dropTable (ts : TargetTables) (name : String) : TargetTables :=
  ts.filter fun t => t.1 != name

/-- Create-or-overwrite a table entry holding `n` rows. -/
def setTable (ts : TargetTables) (name : String) (n : Nat) : TargetTables :=
  (name, n) :: dropTable ts name

/-- Current row count of `name`, if the table exists. -/
def tableCount (ts : TargetTables) (name : String) : Option Nat :=
  (ts.find? fun t => t.1 == name).map (·.2)

/-- `migrate_table(pg_conn, sf_conn, table_name, create_sql)`:
read `SELECT * FROM table_name` from the source (`sourceCount` rows),
`DROP TABLE IF EXISTS` the upper-cased target name, `CREATE TABLE` it
empty, then `write_pandas` the extracted frame into it.  Returns the new
target state and the trace of issued statements.  The function reads
nothing back from the target and constructs no result record: its only
outputs are the two printed row counts, both taken from the extracted
frame and the `write_pandas` return value. -/
def migrate_table (sourceCount : Nat) (table_name : String) (ts : TargetTables) :
    TargetTables × List Op :=
  let up := upperName table_name
  let afterDrop := dropTable ts up
  let afterCreate := setTable afterDrop up 0
  let afterWrite := setTable afterCreate up sourceCount
  (afterWrite,
   [Op.readSource table_name, Op.dropIfExists up, Op.createTable up,
    Op.writeRows up sourceCount])

/-- The fixed insertion order of the `tables` dict in `main` (lines
177-288); Python dicts iterate in insertion order, so this is the
migration order of the loop at lines 291-292. -/
def tableOrder : List String :=
  ["categories", "customers", "employees", "suppliers",
   "shippers", "products", "orders", "order_details"]

/-- `migrate_to_snowflake.py`'s `main`: create the database, migrate every
table of `tableOrder` in sequence (source row counts supplied by the
source service), then `create_views`.  Returns the final target state and
the full statement trace. -/
def runPipeline (counts : String → Nat) (ts : TargetTables) : TargetTables × List Op :=
  let start : TargetTables × List Op := (ts, [Op.createDatabase])
  let afterTables := tableOrder.foldl
    (fun acc name =>
      let step := migrate_table (counts name) name acc.1
      (step.1, acc.2 ++ step.2))
    start
  (afterTables.1,
   afterTables.2 ++ [Op.createView "ORDER_DETAILS_VIEW", Op.createView "PRODUCT_VIEW"])

/-! ### Dashboard aggregate over `DAYS_TO_SHIP` (`streamlit_app/app.py`,
`overview_page`, line 218) -/

/-- The dashboard's `Avg Days to Ship` KPI:
`filtered["days_to_ship"].mean()` when at least one row has a non-null
`days_to_ship`, else `0`.  A pandas mean skips NaN/null entries — they are
dropped from both the numerator and the denominator. -/
def avgDaysToShip (rows : List ViewRow) : Rat :=
  let vals : List Int := rows.filterMap (·.days_to_ship)
  if vals.isEmpty then 0 else (vals.map fun v => (v : Rat)).sum / vals.length

/-! ### Helper lemmas: target table state -/

theorem dropTable_idem (ts : TargetTables) (u : String) :
    dropTable (dropTable ts u) u = dropTable ts u := by
  unfold dropTable
  rw [List.filter_filter]
  simp

theorem dropTable_cons_self (ts : TargetTables) (u : String) (k : Nat) :
    dropTable ((u, k) :: ts) u = dropTable ts u := by
  unfold dropTable
  simp [List.filter_cons]

theorem migrate_table_fst (n : Nat) (name : String) (ts : TargetTables) :
    (migrate_table n name ts).1 =
      (upperName name, n) :: dropTable ts (upperName name) := by
  unfold migrate_table setTable
  simp only []
  rw [dropTable_cons_self]
  simp [dropTable_idem]

theorem tableCount_cons_self (ts : TargetTables) (u : String) (n : Nat) :
    tableCount ((u, n) :: ts) u = some n := by
  simp [tableCount, List.find?]

/-- C1 (counterexample): on a concrete migration of `order_details` the
statement trace of `migrate_table` is exactly extract, drop-if-exists,
create, bulk-write — it contains no read-back of the target row count
(`SELECT COUNT(*)`), so steps (4) and (5) of the claimed algorithm (read
back the count and build a `MigrationResult` with an `ok`/`mismatch`
status) never happen. -/
theorem migrate_table_no_readback_counterexample :
    Op.countRows "ORDER_DETAILS" ∉ (migrate_table 830 "order_details" ([] : TargetTables)).2
    ∧ (migrate_table 830 "order_details" ([] : TargetTables)).2 =
      [Op.readSource "order_details", Op.dropIfExists "ORDER_DETAILS",
       Op.createTable "ORDER_DETAILS", Op.writeRows "ORDER_DETAILS" 830] := by
  constructor
  · decide
  · rfl

/-- C1 (amended): for every table, `migrate_table` (1) extracts all source
rows, (2) provisions the target by drop-if-exists followed by create, and
(3) loads the extracted rows, in that order, leaving the target table
holding exactly the extracted row count; it performs no read-back of the
target row count and builds no result record comparing the two counts. -/
theorem migrate_table_algorithm (n : Nat) (name : String) (ts : TargetTables) :
    (migrate_table n name ts).2 =
      [Op.readSource name, Op.dropIfExists (upperName name),
       Op.createTable (upperName name), Op.writeRows (upperName name) n]
    ∧ tableCount (migrate_table n name ts).1 (upperName name) = some n := by
  refine ⟨rfl, ?_⟩
  rw [migrate_table_fst, tableCount_cons_self]

/-- C9: re-running `migrate_table` on the same table with an unchanged
source reproduces the exact target table state of the first run, and after
either run the target row count equals the source row count: the
drop-and-recreate provisioning makes the migration idempotent at table
granularity, whatever the target's prior state. -/
theorem migrate_table_rerun_idempotent (n : Nat) (name : String) (ts : TargetTables) :
    (migrate_table n name (migrate_table n name ts).1).1 = (migrate_table n name ts).1
    ∧ tableCount (migrate_table n name ts).1 (upperName name) = some n
    ∧ ∀ ts' : TargetTables,
        tableCount (migrate_table n name ts').1 (upperName name) =
          tableCount (migrate_table n name ts).1 (upperName name) := by
  refine ⟨?_, ?_, ?_⟩
  · rw [migrate_table_fst, migrate_table_fst, dropTable_cons_self, dropTable_idem]
  · rw [migrate_table_fst, tableCount_cons_self]
  · intro ts'
    rw [migrate_table_fst, migrate_table_fst, tableCount_cons_self, tableCount_cons_self]

/-- C8: the pipeline's statement trace is exactly: create the database,
then the four-statement migration block of each table in the fixed order
categories, customers, employees, suppliers, shippers, products, orders,
order_details, then the two view definitions — so tables are migrated
strictly sequentially in dependency order and both views are created only
after every table migration has completed. -/
theorem pipeline_trace_order (counts : String → Nat) (ts : TargetTables) :
    (runPipeline counts ts).2 =
      Op.createDatabase ::
        ((["categories", "customers", "employees", "suppliers",
           "shippers", "products", "orders", "order_details"].flatMap fun name =>
            [Op.readSource name, Op.dropIfExists (upperName name),
             Op.createTable (upperName name), Op.writeRows (upperName name) (counts name)])
          ++ [Op.createView "ORDER_DETAILS_VIEW", Op.createView "PRODUCT_VIEW"]) := by
  rfl

/-! ### Helper lemmas: row-count verification -/

theorem verify_row_counts_report (pg sf : String → Nat) :
    (verify_row_counts pg sf).2 =
      verifyTables.map fun t =>
        ⟨t, pg t, sf (upperName t),
         if pg t = sf (upperName t) then "OK" else "MISMATCH"⟩ := by
  simp [verify_row_counts, verifyTables]

theorem verify_row_counts_all_match (pg sf : String → Nat) :
    (verify_row_counts pg sf).1 = true ↔
      ∀ t ∈ verifyTables, pg t = sf (upperName t) := by
  simp [verify_row_counts, verifyTables, and_assoc]

/-- C4: `verify_row_counts` compares `count(*)` of source against target
for each of the eight fixed tables, produces one report entry per table
tagged `MISMATCH` exactly when that table's counts differ, and its overall
flag is true exactly when every table's counts agree; it is a total
function of the two count readings — a mismatch is data in the report, not
an exception. -/
theorem verify_row_counts_spec (pg sf : String → Nat) :
    ((verify_row_counts pg sf).1 = true ↔ ∀ t ∈ verifyTables, pg t = sf (upperName t))
    ∧ (verify_row_counts pg sf).2 =
        (verifyTables.map fun t =>
          ⟨t, pg t, sf (upperName t),
           if pg t = sf (upperName t) then "OK" else "MISMATCH"⟩)
    ∧ ∀ e ∈ (verify_row_counts pg sf).2, (e.tag = "MISMATCH" ↔ e.pgCount ≠ e.sfCount) := by
  refine ⟨verify_row_counts_all_match pg sf, verify_row_counts_report pg sf, ?_⟩
  intro e he
  rw [verify_row_counts_report] at he
  obtain ⟨t, _, rfl⟩ := List.mem_map.mp he
  by_cases h : pg t = sf (upperName t) <;> simp [h]

/-- C3 (counterexample): with a source `order_details` count of 830 and a
target count of 829 (all other tables agreeing), `verify_migration.py`
completes with the row-count mismatch detected and the warning line
printed, yet the process exit status is 0 — not the non-zero status the
claim requires. -/
theorem verify_exit_status_counterexample :
    (verifyMain (fun t => if t = "order_details" then 830 else 5)
        (fun t => if t = "ORDER_DETAILS" then 829 else 5) [] []).rowMatch = false
    ∧ (verifyMain (fun t => if t = "order_details" then 830 else 5)
        (fun t => if t = "ORDER_DETAILS" then 829 else 5) [] []).finalLine =
        "WARNING: Some row counts do not match!"
    ∧ (verifyMain (fun t => if t = "order_details" then 830 else 5)
        (fun t => if t = "ORDER_DETAILS" then 829 else 5) [] []).exitCode = 0 := by
  refine ⟨by decide, by decide, rfl⟩

/-- C3 (amended): a verification run with row-count mismatches still runs
to completion, and is distinguished from a clean run only by its printed
output (the final warning line, equivalent to some table's counts
differing) — the exit status is 0 in every run, mismatch or clean, and the
metric values influence neither the final line nor the exit status. -/
theorem verify_main_exit_semantics (pg sf : String → Nat) (ods : List OrderDetail)
    (view : List ViewRow) :
    (verifyMain pg sf ods view).exitCode = 0
    ∧ ((verifyMain pg sf ods view).finalLine = "WARNING: Some row counts do not match!"
        ↔ ¬ ∀ t ∈ verifyTables, pg t = sf (upperName t))
    ∧ ∀ ods' view',
        ((verifyMain pg sf ods' view').finalLine = (verifyMain pg sf ods view).finalLine
          ∧ (verifyMain pg sf ods' view').exitCode = (verifyMain pg sf ods view).exitCode) := by
  refine ⟨rfl, ?_, fun ods' view' => ⟨rfl, rfl⟩⟩
  unfold verifyMain
  simp only []
  rw [← verify_row_counts_all_match pg sf]
  by_cases h : (verify_row_counts pg sf).1 <;> simp [h]

/-! ### Helper lemmas: view rows -/

/-- Destructuring membership in `ORDER_DETAILS_VIEW`: every output row is
`mkOrderDetailsRow` applied to a joined tuple whose order line and parent
order come from the base tables with matching order ids. -/
theorem mem_orderDetailsView {db : Database} {r : ViewRow}
    (hr : r ∈ orderDetailsView db) :
    ∃ od ∈ db.order_details, ∃ o ∈ db.orders, od.order_id = o.order_id ∧
      ∃ c e s p cat, r = mkOrderDetailsRow od o c e s p cat := by
  simp only [orderDetailsView, orderDetailsRowsFor, List.mem_flatMap, List.mem_map,
    List.mem_filter] at hr
  obtain ⟨od, hod, o, ⟨ho, hid⟩, c, _, e, _, s, _, p, _, cat, _, rfl⟩ := hr
  exact ⟨od, hod, o, ho, by simpa using hid, c, e, s, p, cat, rfl⟩

/-- Scenario B database: one order line `unit_price=10.00, quantity=5,
discount=0.10` with its parent order. -/
def scenarioBDb : Database where
  categories := []
  customers := []
  employees := []
  suppliers := []
  shippers := []
  products := []
  orders := [⟨1, none, none, none, none, none⟩]
  order_details := [⟨1, 1, 10, 5, 1/10⟩]

/-- C5: in every row of `ORDER_DETAILS_VIEW`,
`gross_revenue = unit_price * quantity`,
`discount_amount = unit_price * quantity * discount` and
`net_revenue = gross_revenue - discount_amount`, exactly; on the Scenario B
line (`unit_price=10.00, quantity=5, discount=0.10`) the view produces the
single row with `gross_revenue=50.00, discount_amount=5.00,
net_revenue=45.00`. -/
theorem view_calculated_columns :
    (∀ (db : Database), ∀ r ∈ orderDetailsView db,
        r.gross_revenue = r.unit_price * (r.quantity : Rat)
        ∧ r.discount_amount = r.unit_price * (r.quantity : Rat) * r.discount
        ∧ r.net_revenue = r.gross_revenue - r.discount_amount)
    ∧ (orderDetailsView scenarioBDb).map
        (fun r => (r.gross_revenue, r.discount_amount, r.net_revenue)) =
      [((50 : Rat), (5 : Rat), (45 : Rat))] := by
  constructor
  · intro db r hr
    obtain ⟨od, _, o, _, _, c, e, s, p, cat, rfl⟩ := mem_orderDetailsView hr
    exact ⟨rfl, rfl, rfl⟩
  · show [((10 : Rat) * (5 : Int), (10 : Rat) * (5 : Int) * (1 / 10),
      (10 : Rat) * (5 : Int) - (10 : Rat) * (5 : Int) * (1 / 10))] = _
    norm_num

/-- C5 witness: the calculated-column identities instantiated on the
Scenario B row of `ORDER_DETAILS_VIEW`. -/
theorem view_calculated_columns_witness :
    ∀ r ∈ orderDetailsView scenarioBDb,
      r.gross_revenue = r.unit_price * (r.quantity : Rat)
      ∧ r.discount_amount = r.unit_price * (r.quantity : Rat) * r.discount
      ∧ r.net_revenue = r.gross_revenue - r.discount_amount :=
  view_calculated_columns.1 scenarioBDb

/-- Scenario D database: an order whose `shipped_date` is NULL, plus an
order that shipped 3 days after it was placed. -/
def scenarioDDb : Database where
  categories := []
  customers := []
  employees := []
  suppliers := []
  shippers := []
  products := []
  orders := [⟨1, none, none, some 100, none, none⟩, ⟨2, none, none, some 100, some 103, none⟩]
  order_details := [⟨1, 1, 10, 5, 0⟩, ⟨2, 1, 10, 5, 0⟩]

/-- C7: in every row of `ORDER_DETAILS_VIEW`, `days_to_ship` is
`shipped_date - order_date` in whole days when both dates are present and
NULL when either is NULL; and the dashboard's average over `days_to_ship`
skips NULL rows — prepending a row with NULL `days_to_ship` leaves the
aggregate unchanged (it is not counted as zero). -/
theorem days_to_ship_semantics :
    (∀ (db : Database), ∀ r ∈ orderDetailsView db,
        r.days_to_ship = dateDiffDay r.order_date r.shipped_date
        ∧ ((r.order_date = none ∨ r.shipped_date = none) → r.days_to_ship = none)
        ∧ (∀ a b : Int, r.order_date = some a → r.shipped_date = some b →
            r.days_to_ship = some (b - a)))
    ∧ (∀ (r : ViewRow) (rows : List ViewRow), r.days_to_ship = none →
        avgDaysToShip (r :: rows) = avgDaysToShip rows) := by
  constructor
  · intro db r hr
    obtain ⟨od, _, o, _, _, c, e, s, p, cat, rfl⟩ := mem_orderDetailsView hr
    refine ⟨rfl, ?_, ?_⟩
    · rintro (h | h) <;>
        simp only [mkOrderDetailsRow] at h ⊢ <;>
        simp [dateDiffDay, h]
    · intro a b ha hb
      simp only [mkOrderDetailsRow] at ha hb ⊢
      simp [dateDiffDay, ha, hb]
  · intro r rows h
    have hfm : (r :: rows).filterMap (fun x => x.days_to_ship) =
        rows.filterMap (fun x => x.days_to_ship) := by
      simp [List.filterMap_cons, h]
    simp only [avgDaysToShip, hfm]

/-- C7 witness: the Scenario D view holds a NULL-shipped row (whose
`days_to_ship` is NULL) and a row shipped in 3 days; dropping the NULL row
leaves the dashboard average unchanged. -/
theorem days_to_ship_semantics_witness :
    ∃ r ∈ orderDetailsView scenarioDDb, ∃ rest,
      orderDetailsView scenarioDDb = r :: rest
      ∧ r.shipped_date = none
      ∧ r.days_to_ship = none
      ∧ avgDaysToShip (r :: rest) = avgDaysToShip rest
      ∧ ∃ r2 ∈ rest, r2.days_to_ship = some 3 := by
  refine ⟨(orderDetailsView scenarioDDb).head (by decide),
    List.head_mem _, (orderDetailsView scenarioDDb).tail, by simp, rfl, ?_, ?_, ?_⟩
  · exact (days_to_ship_semantics.1 scenarioDDb _ (List.head_mem _)).2.1 (Or.inr rfl)
  · exact days_to_ship_semantics.2 _ _
      ((days_to_ship_semantics.1 scenarioDDb _ (List.head_mem _)).2.1 (Or.inr rfl))
  · exact ⟨(orderDetailsView scenarioDDb).tail.head (by decide), List.head_mem _, rfl⟩

/-! ### Helper lemmas: left-join partner selection -/

/-- The first join partner offered by a `LEFT JOIN` (`none` when there is
no match). -/
def joinPick {α : Type} (l : List α) (p : α → Bool) : Option α :=
  (leftJoin l p).headD none

theorem headD_mem {α : Type} {l : List α} (d : α) (h : l ≠ []) : l.headD d ∈ l := by
  cases l with
  | nil => exact absurd rfl h
  | cons a t => simp

theorem leftJoin_ne_nil {α : Type} (l : List α) (p : α → Bool) : leftJoin l p ≠ [] := by
  unfold leftJoin
  cases h : l.filter p with
  | nil => simp
  | cons a t => simp

theorem joinPick_mem {α : Type} (l : List α) (p : α → Bool) :
    joinPick l p ∈ leftJoin l p :=
  headD_mem none (leftJoin_ne_nil l p)

theorem joinPick_of_no_match {α : Type} {l : List α} {p : α → Bool}
    (h : ∀ x ∈ l, ¬ p x) : joinPick l p = none := by
  unfold joinPick leftJoin
  rw [List.filter_eq_nil_iff.mpr h]
  rfl

theorem joinPick_cases {α : Type} (l : List α) (p : α → Bool) :
    joinPick l p = none ∨ ∃ x, joinPick l p = some x ∧ x ∈ l ∧ p x := by
  unfold joinPick leftJoin
  cases h : l.filter p with
  | nil => exact Or.inl rfl
  | cons a t =>
    refine Or.inr ⟨a, rfl, ?_⟩
    have := List.mem_filter.mp (h ▸ List.mem_cons_self a t)
    exact ⟨this.1, this.2⟩

/-- The view row built from one order line, its parent order, and the
first offered partner of each of the five left joins. -/
def pickedRow (db : Database) (od : OrderDetail) (o : Order) : ViewRow :=
  let c? := joinPick db.customers fun c => o.customer_id == some c.customer_id
  let e? := joinPick db.employees fun e => o.employee_id == some e.employee_id
  let s? := joinPick db.shippers fun s => o.ship_via == some s.shipper_id
  let p? := joinPick db.products fun p => od.product_id == p.product_id
  let cat? := joinPick db.categories fun cat =>
    (p?.bind fun p => p.category_id) == some cat.category_id
  mkOrderDetailsRow od o c? e? s? p? cat?

theorem pickedRow_mem {db : Database} {od : OrderDetail} {o : Order}
    (hod : od ∈ db.order_details) (ho : o ∈ db.orders)
    (hid : od.order_id = o.order_id) :
    pickedRow db od o ∈ orderDetailsView db := by
  simp only [orderDetailsView, orderDetailsRowsFor, List.mem_flatMap, List.mem_map,
    List.mem_filter]
  exact ⟨od, hod, o, ⟨ho, by simp [hid]⟩,
    _, joinPick_mem _ _, _, joinPick_mem _ _, _, joinPick_mem _ _,
    _, joinPick_mem _ _, _, joinPick_mem _ _, rfl⟩

/-- C6: join semantics of the two views.  (i) Every `ORDER_DETAILS_VIEW`
row has a matching parent order — an order line with no matching order is
excluded by the inner join.  (ii) An order line with a parent order always
yields a view row, even when customer, employee, shipper, product or the
product's category have no match; each missing partner's columns surface
as NULL.  (iii) In `PRODUCT_VIEW`, a product with no category still
appears, with NULL category fields. -/
theorem view_join_null_semantics :
    (∀ (db : Database), ∀ r ∈ orderDetailsView db, ∃ o ∈ db.orders, o.order_id = r.order_id)
    ∧ (∀ (db : Database) (od : OrderDetail) (o : Order),
        od ∈ db.order_details → o ∈ db.orders → od.order_id = o.order_id →
        ∃ r ∈ orderDetailsView db,
          r.order_id = od.order_id ∧ r.product_id = od.product_id
          ∧ ((∀ c ∈ db.customers, o.customer_id ≠ some c.customer_id) →
              r.customer_company = none ∧ r.customer_contact = none
              ∧ r.customer_title = none ∧ r.customer_city = none
              ∧ r.customer_country = none)
          ∧ ((∀ e ∈ db.employees, o.employee_id ≠ some e.employee_id) →
              r.employee_last_name = none ∧ r.employee_name = none
              ∧ r.employee_title = none ∧ r.hire_date = none ∧ r.employee_city = none)
          ∧ ((∀ s ∈ db.shippers, o.ship_via ≠ some s.shipper_id) →
              r.shipping_company = none)
          ∧ ((∀ p ∈ db.products, od.product_id ≠ p.product_id) →
              r.product_name = none ∧ r.category_id = none ∧ r.category_name = none)
          ∧ ((∀ p ∈ db.products, od.product_id = p.product_id →
                ∀ cat ∈ db.categories, p.category_id ≠ some cat.category_id) →
              r.category_name = none))
    ∧ (∀ (db : Database), ∀ p ∈ db.products,
        (∀ cat ∈ db.categories, p.category_id ≠ some cat.category_id) →
        ∃ pr ∈ productView db,
          pr.product_id = p.product_id ∧ pr.product_name = p.product_name
          ∧ pr.category_name = none ∧ pr.category_description = none) := by
  refine ⟨?_, ?_, ?_⟩
  · intro db r hr
    obtain ⟨od, _, o, ho, hid, c, e, s, p, cat, rfl⟩ := mem_orderDetailsView hr
    exact ⟨o, ho, hid.symm⟩
  · intro db od o hod ho hid
    refine ⟨pickedRow db od o, pickedRow_mem hod ho hid, rfl, rfl, ?_, ?_, ?_, ?_, ?_⟩
    · intro h
      have hc : joinPick db.customers
          (fun c => o.customer_id == some c.customer_id) = none :=
        joinPick_of_no_match fun c hcmem => by simpa using h c hcmem
      simp only [pickedRow, hc]
      exact ⟨rfl, rfl, rfl, rfl, rfl⟩
    · intro h
      have he : joinPick db.employees
          (fun e => o.employee_id == some e.employee_id) = none :=
        joinPick_of_no_match fun e hemem => by simpa using h e hemem
      simp only [pickedRow, he]
      exact ⟨rfl, rfl, rfl, rfl, rfl⟩
    · intro h
      have hs : joinPick db.shippers
          (fun s => o.ship_via == some s.shipper_id) = none :=
        joinPick_of_no_match fun s hsmem => by simpa using h s hsmem
      simp only [pickedRow, hs]
      rfl
    · intro h
      have hp : joinPick db.products
          (fun p => od.product_id == p.product_id) = none :=
        joinPick_of_no_match fun p hpmem => by simpa using h p hpmem
      have hcat : joinPick db.categories
          (fun cat => ((joinPick db.products
              (fun p => od.product_id == p.product_id)).bind fun p => p.category_id)
            == some cat.category_id) = none := by
        refine joinPick_of_no_match fun cat _ => ?_
        rw [hp]
        simp
      simp only [pickedRow]
      rw [hcat, hp]
      exact ⟨rfl, rfl, rfl⟩
    · intro h
      rcases joinPick_cases db.products (fun p => od.product_id == p.product_id) with
        hp | ⟨p0, hp, hpmem, hpkey⟩
      · have hcat : joinPick db.categories
            (fun cat => ((joinPick db.products
                (fun p => od.product_id == p.product_id)).bind fun p => p.category_id)
              == some cat.category_id) = none := by
          refine joinPick_of_no_match fun cat _ => ?_
          rw [hp]
          simp
        simp only [pickedRow]
        rw [hcat]
        rfl
      · have hcat : joinPick db.categories
            (fun cat => ((joinPick db.products
                (fun p => od.product_id == p.product_id)).bind fun p => p.category_id)
              == some cat.category_id) = none := by
          refine joinPick_of_no_match fun cat hcatmem => ?_
          rw [hp]
          have hkey : od.product_id = p0.product_id := by simpa using hpkey
          simpa using h p0 hpmem hkey cat hcatmem
        simp only [pickedRow]
        rw [hcat]
        rfl
  · intro db p hp h
    have hc : joinPick db.categories
        (fun c => p.category_id == some c.category_id) = none :=
      joinPick_of_no_match fun c hcmem => by simpa using h c hcmem
    refine ⟨{ product_id := p.product_id
              product_name := p.product_name
              supplier_id := p.supplier_id
              category_id := p.category_id
              unit_price := p.unit_price
              units_in_stock := p.units_in_stock
              units_on_order := p.units_on_order
              category_name := (joinPick db.categories
                (fun c => p.category_id == some c.category_id)).bind (·.category_name)
              category_description := (joinPick db.categories
                (fun c => p.category_id == some c.category_id)).bind (·.description) },
      ?_, rfl, rfl, ?_, ?_⟩
    · simp only [productView, List.mem_flatMap, List.mem_map]
      exact ⟨p, hp, joinPick db.categories
        (fun c => p.category_id == some c.category_id), joinPick_mem _ _, rfl⟩
    · show (joinPick db.categories
        (fun c => p.category_id == some c.category_id)).bind (·.category_name) = none
      rw [hc]
      rfl
    · show (joinPick db.categories
        (fun c => p.category_id == some c.category_id)).bind (·.description) = none
      rw [hc]
      rfl

/-- C6 witness database: an order line whose parent order exists but
references no known customer, employee or shipper; no products and no
categories are loaded. -/
def scenarioJoinDb : Database where
  categories := []
  customers := []
  employees := []
  suppliers := []
  shippers := []
  products := []
  orders := [⟨7, some "ALFKI", some 3, some 100, some 104, some 2⟩]
  order_details := [⟨7, 11, 10, 5, 0⟩]

/-- C6 witness: the join-semantics theorem instantiated on a database
where the order line's parent order exists but every left-join partner is
missing. -/
theorem view_join_null_semantics_witness :
    ∃ r ∈ orderDetailsView scenarioJoinDb,
      r.order_id = OrderDetail.order_id ⟨7, 11, 10, 5, 0⟩
      ∧ r.product_id = OrderDetail.product_id ⟨7, 11, 10, 5, 0⟩
      ∧ ((∀ c ∈ scenarioJoinDb.customers,
            Order.customer_id ⟨7, some "ALFKI", some 3, some 100, some 104, some 2⟩
              ≠ some c.customer_id) →
          r.customer_company = none ∧ r.customer_contact = none
          ∧ r.customer_title = none ∧ r.customer_city = none
          ∧ r.customer_country = none)
      ∧ ((∀ e ∈ scenarioJoinDb.employees,
            Order.employee_id ⟨7, some "ALFKI", some 3, some 100, some 104, some 2⟩
              ≠ some e.employee_id) →
          r.employee_last_name = none ∧ r.employee_name = none
          ∧ r.employee_title = none ∧ r.hire_date = none ∧ r.employee_city = none)
      ∧ ((∀ s ∈ scenarioJoinDb.shippers,
            Order.ship_via ⟨7, some "ALFKI", some 3, some 100, some 104, some 2⟩
              ≠ some s.shipper_id) →
          r.shipping_company = none)
      ∧ ((∀ p ∈ scenarioJoinDb.products,
            OrderDetail.product_id ⟨7, 11, 10, 5, 0⟩ ≠ p.product_id) →
          r.product_name = none ∧ r.category_id = none ∧ r.category_name = none)
      ∧ ((∀ p ∈ scenarioJoinDb.products,
            OrderDetail.product_id ⟨7, 11, 10, 5, 0⟩ = p.product_id →
            ∀ cat ∈ scenarioJoinDb.categories,
              p.category_id ≠ some cat.category_id) →
          r.category_name = none) :=
  view_join_null_semantics.2.1 scenarioJoinDb ⟨7, 11, 10, 5, 0⟩
    ⟨7, some "ALFKI", some 3, some 100, some 104, some 2⟩
    (by decide) (by decide) (by decide)

/-! ### C2: the metric check of `verify_key_metrics` -/

/-- Source `order_details`: one line of 5 units at 10.00, no discount. -/
def c2SrcOds : List OrderDetail := [⟨1, 1, 10, 5, 0⟩]

/-- Target database after a corrupted load: the same single line arrived
with `unit_price` 1.00 instead of 10.00 (row counts still agree). -/
def c2TargetDb : Database where
  categories := []
  customers := []
  employees := []
  suppliers := []
  shippers := []
  products := []
  orders := [⟨1, none, none, none, none, none⟩]
  order_details := [⟨1, 1, 1, 5, 0⟩]

/-- C2 (code evaluated at the failing input): on a target whose gross
revenue disagrees with the source by 45.00 — far beyond the 0.01
tolerance — `verify_key_metrics` merely returns (prints) the two metric
records; it computes no pass/fail flag, and the run's final verdict line
and exit status are those of a clean run.  The claimed tolerance
comparison `abs(source - target) < 0.01` exists nowhere in the code. -/
theorem verify_key_metrics_no_comparison :
    verify_key_metrics c2SrcOds (orderDetailsView c2TargetDb) =
      (pgMetrics c2SrcOds, sfMetrics (orderDetailsView c2TargetDb))
    ∧ (pgMetrics c2SrcOds).gross_revenue = 50
    ∧ (sfMetrics (orderDetailsView c2TargetDb)).gross_revenue = 5
    ∧ ¬ |(pgMetrics c2SrcOds).gross_revenue
          - (sfMetrics (orderDetailsView c2TargetDb)).gross_revenue| < 1 / 100
    ∧ (verifyMain (fun _ => 1) (fun _ => 1) c2SrcOds
        (orderDetailsView c2TargetDb)).finalLine = "All row counts match!"
    ∧ (verifyMain (fun _ => 1) (fun _ => 1) c2SrcOds
        (orderDetailsView c2TargetDb)).exitCode = 0 := by
  have hpg : (pgMetrics c2SrcOds).gross_revenue = 50 := by
    norm_num [pgMetrics, c2SrcOds]
  have hsf : (sfMetrics (orderDetailsView c2TargetDb)).gross_revenue = 5 := by
    norm_num [sfMetrics, orderDetailsView, orderDetailsRowsFor, leftJoin, c2TargetDb,
      mkOrderDetailsRow]
  refine ⟨rfl, hpg, hsf, ?_, by decide, rfl⟩
  rw [hpg, hsf]
  norm_num

/-! ### C10: source metrics vs. view metrics -/

/-- Primary-key integrity of the loaded tables: each declared PRIMARY KEY
column holds pairwise-distinct values (the `CREATE TABLE` statements
declare these keys, so a faithfully migrated database satisfies this). -/
def WellKeyed (db : Database) : Prop :=
  (db.customers.map (·.customer_id)).Nodup
  ∧ (db.employees.map (·.employee_id)).Nodup
  ∧ (db.shippers.map (·.shipper_id)).Nodup
  ∧ (db.products.map (·.product_id)).Nodup
  ∧ (db.categories.map (·.category_id)).Nodup
  ∧ (db.orders.map (·.order_id)).Nodup

instance wellKeyedDecidable (db : Database) : Decidable (WellKeyed db) := by
  unfold WellKeyed
  infer_instance

theorem key_uniq {α κ : Type} {l : List α} {f : α → κ} (h : (l.map f).Nodup) :
    ∀ x ∈ l, ∀ y ∈ l, f x = f y → x = y :=
  fun _ hx _ hy hf => List.inj_on_of_nodup_map h hx hy hf

theorem filter_subsingleton {α : Type} {l : List α} {p : α → Bool} (hl : l.Nodup)
    (huniq : ∀ x ∈ l, ∀ y ∈ l, p x → p y → x = y) :
    l.filter p = [] ∨ ∃ x, l.filter p = [x] := by
  induction l with
  | nil => exact Or.inl rfl
  | cons a t ih =>
    rw [List.nodup_cons] at hl
    by_cases hpa : p a
    · refine Or.inr ⟨a, ?_⟩
      rw [List.filter_cons_of_pos hpa]
      have ht : t.filter p = [] := by
        refine List.filter_eq_nil_iff.mpr fun y hy hpy => ?_
        have : y = a := huniq y (List.mem_cons_of_mem a hy) a (List.mem_cons_self a t) hpy hpa
        exact hl.1 (this ▸ hy)
      rw [ht]
    · rw [List.filter_cons_of_neg hpa]
      exact ih hl.2 fun x hx y hy hpx hpy =>
        huniq x (List.mem_cons_of_mem a hx) y (List.mem_cons_of_mem a hy) hpx hpy

theorem leftJoin_subsingleton {α : Type} {l : List α} {p : α → Bool} (hl : l.Nodup)
    (huniq : ∀ x ∈ l, ∀ y ∈ l, p x → p y → x = y) :
    ∃ z, leftJoin l p = [z] := by
  rcases filter_subsingleton hl huniq with h | ⟨x, h⟩
  · exact ⟨none, by unfold leftJoin; rw [h]⟩
  · exact ⟨some x, by unfold leftJoin; rw [h]; rfl⟩

/-- The inner join of an order line to its parent order finds exactly the
one matching order when order ids are unique. -/
theorem orders_filter_singleton {db : Database} (hord : (db.orders.map (·.order_id)).Nodup)
    {od : OrderDetail} {o : Order} (ho : o ∈ db.orders) (hid : od.order_id = o.order_id) :
    db.orders.filter (fun o' => od.order_id == o'.order_id) = [o] := by
  have huniq : ∀ x ∈ db.orders, ∀ y ∈ db.orders,
      (od.order_id == x.order_id) → (od.order_id == y.order_id) → x = y := by
    intro x hx y hy hpx hpy
    refine key_uniq hord x hx y hy ?_
    have h1 : od.order_id = x.order_id := by simpa using hpx
    have h2 : od.order_id = y.order_id := by simpa using hpy
    exact h1 ▸ h2
  rcases filter_subsingleton (List.Nodup.of_map _ hord) huniq with h | ⟨x, h⟩
  · exact absurd (h ▸ List.mem_filter.mpr ⟨ho, by simp [hid]⟩) (List.not_mem_nil o)
  · have : o ∈ [x] := h ▸ List.mem_filter.mpr ⟨ho, by simp [hid]⟩
    rw [h, List.mem_singleton.mp this]

/-- Under primary-key integrity, each order line with a matching parent
order contributes exactly one row to `ORDER_DETAILS_VIEW`, and that row
carries the line's calculated columns, order id and quantity. -/
theorem rowsFor_singleton (db : Database) (hwk : WellKeyed db) {od : OrderDetail}
    {o : Order} (ho : o ∈ db.orders) (hid : od.order_id = o.order_id) :
    ∃ r : ViewRow, orderDetailsRowsFor db od = [r]
      ∧ r.gross_revenue = od.unit_price * (od.quantity : Rat)
      ∧ r.discount_amount = od.unit_price * (od.quantity : Rat) * od.discount
      ∧ r.net_revenue = od.unit_price * (od.quantity : Rat)
          - od.unit_price * (od.quantity : Rat) * od.discount
      ∧ r.order_id = od.order_id ∧ r.quantity = od.quantity := by
  obtain ⟨hcus, hemp, hshp, hprd, hcat, hord⟩ := hwk
  have h1 : db.orders.filter (fun o' => od.order_id == o'.order_id) = [o] :=
    orders_filter_singleton hord ho hid
  obtain ⟨c?, hc⟩ :
      ∃ z, leftJoin db.customers (fun c => o.customer_id == some c.customer_id) = [z] := by
    refine leftJoin_subsingleton (List.Nodup.of_map _ hcus) fun x hx y hy hpx hpy =>
      key_uniq hcus x hx y hy (Option.some.inj ?_)
    have h1 : o.customer_id = some x.customer_id := by simpa using hpx
    have h2 : o.customer_id = some y.customer_id := by simpa using hpy
    exact h1 ▸ h2
  obtain ⟨e?, he⟩ :
      ∃ z, leftJoin db.employees (fun e => o.employee_id == some e.employee_id) = [z] := by
    refine leftJoin_subsingleton (List.Nodup.of_map _ hemp) fun x hx y hy hpx hpy =>
      key_uniq hemp x hx y hy (Option.some.inj ?_)
    have h1 : o.employee_id = some x.employee_id := by simpa using hpx
    have h2 : o.employee_id = some y.employee_id := by simpa using hpy
    exact h1 ▸ h2
  obtain ⟨s?, hs⟩ :
      ∃ z, leftJoin db.shippers (fun s => o.ship_via == some s.shipper_id) = [z] := by
    refine leftJoin_subsingleton (List.Nodup.of_map _ hshp) fun x hx y hy hpx hpy =>
      key_uniq hshp x hx y hy (Option.some.inj ?_)
    have h1 : o.ship_via = some x.shipper_id := by simpa using hpx
    have h2 : o.ship_via = some y.shipper_id := by simpa using hpy
    exact h1 ▸ h2
  obtain ⟨p?, hp⟩ :
      ∃ z, leftJoin db.products (fun p => od.product_id == p.product_id) = [z] := by
    refine leftJoin_subsingleton (List.Nodup.of_map _ hprd) fun x hx y hy hpx hpy =>
      key_uniq hprd x hx y hy ?_
    have h1 : od.product_id = x.product_id := by simpa using hpx
    have h2 : od.product_id = y.product_id := by simpa using hpy
    exact h1 ▸ h2
  obtain ⟨cat?, hcat2⟩ :
      ∃ z, leftJoin db.categories (fun cat =>
        (p?.bind fun p => p.category_id) == some cat.category_id) = [z] := by
    refine leftJoin_subsingleton (List.Nodup.of_map _ hcat) fun x hx y hy hpx hpy =>
      key_uniq hcat x hx y hy (Option.some.inj ?_)
    have h1 : (p?.bind fun p => p.category_id) = some x.category_id := by simpa using hpx
    have h2 : (p?.bind fun p => p.category_id) = some y.category_id := by simpa using hpy
    exact h1 ▸ h2
  refine ⟨mkOrderDetailsRow od o c? e? s? p? cat?, ?_, rfl, rfl, rfl, rfl, rfl⟩
  unfold orderDetailsRowsFor
  rw [h1]
  simp only [List.flatMap_cons, List.flatMap_nil, List.append_nil]
  rw [hc]
  simp only [List.flatMap_cons, List.flatMap_nil, List.append_nil]
  rw [he]
  simp only [List.flatMap_cons, List.flatMap_nil, List.append_nil]
  rw [hs]
  simp only [List.flatMap_cons, List.flatMap_nil, List.append_nil]
  rw [hp]
  simp only [List.flatMap_cons, List.flatMap_nil, List.append_nil]
  rw [hcat2]
  simp only [List.map_cons, List.map_nil]

theorem flatMap_map_singleton {α β γ : Type} {xs : List α} {f : α → List β}
    {h : β → γ} {g : α → γ} (H : ∀ x ∈ xs, (f x).map h = [g x]) :
    (xs.flatMap f).map h = xs.map g := by
  induction xs with
  | nil => rfl
  | cons a t ih =>
    rw [List.flatMap_cons, List.map_append, H a (List.mem_cons_self a t),
      ih fun x hx => H x (List.mem_cons_of_mem a hx), List.map_cons,
      List.singleton_append]

/-- Under primary-key integrity and with every order line matched by a
parent order, the five source aggregates over raw `order_details` equal
the five view aggregates exactly. -/
theorem metrics_agree (db : Database) (hwk : WellKeyed db)
    (hmatch : ∀ od ∈ db.order_details, ∃ o ∈ db.orders, od.order_id = o.order_id) :
    pgMetrics db.order_details = sfMetrics (orderDetailsView db) := by
  have hsingle : ∀ od ∈ db.order_details, ∃ r : ViewRow,
      orderDetailsRowsFor db od = [r]
      ∧ r.gross_revenue = od.unit_price * (od.quantity : Rat)
      ∧ r.discount_amount = od.unit_price * (od.quantity : Rat) * od.discount
      ∧ r.net_revenue = od.unit_price * (od.quantity : Rat)
          - od.unit_price * (od.quantity : Rat) * od.discount
      ∧ r.order_id = od.order_id ∧ r.quantity = od.quantity := by
    intro od hod
    obtain ⟨o, ho, hid⟩ := hmatch od hod
    exact rowsFor_singleton db hwk ho hid
  have hg : (orderDetailsView db).map (fun r => r.gross_revenue)
      = db.order_details.map (fun od => od.unit_price * (od.quantity : Rat)) := by
    refine flatMap_map_singleton fun od hod => ?_
    obtain ⟨r, hr, h1, _, _, _, _⟩ := hsingle od hod
    rw [hr, List.map_cons, List.map_nil, h1]
  have hd : (orderDetailsView db).map (fun r => r.discount_amount)
      = db.order_details.map (fun od => od.unit_price * (od.quantity : Rat) * od.discount) := by
    refine flatMap_map_singleton fun od hod => ?_
    obtain ⟨r, hr, _, h2, _, _, _⟩ := hsingle od hod
    rw [hr, List.map_cons, List.map_nil, h2]
  have hn : (orderDetailsView db).map (fun r => r.net_revenue)
      = db.order_details.map (fun od =>
          od.unit_price * (od.quantity : Rat)
            - od.unit_price * (od.quantity : Rat) * od.discount) := by
    refine flatMap_map_singleton fun od hod => ?_
    obtain ⟨r, hr, _, _, h3, _, _⟩ := hsingle od hod
    rw [hr, List.map_cons, List.map_nil, h3]
  have ho : (orderDetailsView db).map (fun r => r.order_id)
      = db.order_details.map (fun od => od.order_id) := by
    refine flatMap_map_singleton fun od hod => ?_
    obtain ⟨r, hr, _, _, _, h4, _⟩ := hsingle od hod
    rw [hr, List.map_cons, List.map_nil, h4]
  have hq : (orderDetailsView db).map (fun r => r.quantity)
      = db.order_details.map (fun od => od.quantity) := by
    refine flatMap_map_singleton fun od hod => ?_
    obtain ⟨r, hr, _, _, _, _, h5⟩ := hsingle od hod
    rw [hr, List.map_cons, List.map_nil, h5]
  simp only [pgMetrics, sfMetrics]
  rw [hg, hd, hn, ho, hq]

/-- Orphan scenario: one order line whose parent order is missing. -/
def orphanDb : Database where
  categories := []
  customers := []
  employees := []
  suppliers := []
  shippers := []
  products := []
  orders := []
  order_details := [⟨1, 1, 10, 5, 0⟩]

/-- C10: the source metric query aggregates the raw `order_details` table
while the target metric query aggregates `ORDER_DETAILS_VIEW`, whose
inner join drops orphan order lines.  Under primary-key integrity, if
every order line has a matching parent order the two metric computations
agree exactly (hence within any tolerance); and on a concrete orphan line
they disagree — the orphan contributes 50.00 gross revenue and one
distinct order to the source side and nothing to the view side. -/
theorem metrics_refinement :
    (∀ db : Database, WellKeyed db →
        (∀ od ∈ db.order_details, ∃ o ∈ db.orders, od.order_id = o.order_id) →
        pgMetrics db.order_details = sfMetrics (orderDetailsView db))
    ∧ pgMetrics orphanDb.order_details ≠ sfMetrics (orderDetailsView orphanDb)
    ∧ (pgMetrics orphanDb.order_details).gross_revenue = 50
    ∧ (pgMetrics orphanDb.order_details).orders = 1
    ∧ (sfMetrics (orderDetailsView orphanDb)).gross_revenue = 0
    ∧ (sfMetrics (orderDetailsView orphanDb)).orders = 0
    ∧ ¬ (∀ od ∈ orphanDb.order_details, ∃ o ∈ orphanDb.orders, od.order_id = o.order_id) := by
  refine ⟨metrics_agree, ?_, ?_, by decide, ?_, by decide, by decide⟩
  · intro h
    have h2 := congrArg Metrics.orders h
    have h3 : (pgMetrics orphanDb.order_details).orders = 1 := by decide
    have h4 : (sfMetrics (orderDetailsView orphanDb)).orders = 0 := by decide
    rw [h3, h4] at h2
    exact one_ne_zero h2
  · norm_num [pgMetrics, orphanDb]
  · norm_num [sfMetrics, orderDetailsView, orderDetailsRowsFor, orphanDb]

/-- A matched database: the Scenario B line together with its parent
order. -/
def matchedDb : Database where
  categories := []
  customers := []
  employees := []
  suppliers := []
  shippers := []
  products := []
  orders := [⟨1, none, none, none, none, none⟩]
  order_details := [⟨1, 1, 10, 5, 0⟩]

/-- C10 witness: the conditional metric equivalence instantiated on a
concrete well-keyed database in which the single order line has its parent
order. -/
theorem metrics_refinement_witness :
    pgMetrics matchedDb.order_details = sfMetrics (orderDetailsView matchedDb) :=
  metrics_refinement.1 matchedDb (by decide) (by decide)

end Northwind
